import Mathlib

/-!
Verification of the botsmith orchestration core (src/index.ts).

The TypeScript source is shallowly embedded: JavaScript dynamic values are
modelled by the inductive `Json`; a thrown JavaScript exception is modelled
by the `JsError` structure, and functions that can throw return
`Except JsError _`.  Asynchronous functions are modelled by the fate of the
promise they return (an `Except JsError _` value); `await` is the monadic
bind.  JavaScript numbers are modelled as exact rationals.
-/

mutual
/-- A JavaScript/JSON value (the dynamic values flowing through the code).
Arrays and objects carry their own list types so that all recursion over
values is structural. -/
inductive Json where
  | null : Json
  | bool (b : Bool) : Json
  | num (q : ℚ) : Json
  | str (s : String) : Json
  | arr (elems : JsonItems) : Json
  | obj (fields : JsonFields) : Json
/-- The elements of a JSON array. -/
inductive JsonItems where
  | nil : JsonItems
  | cons (head : Json) (tail : JsonItems) : JsonItems
/-- The key/value fields of a JSON object, in insertion order. -/
inductive JsonFields where
  | nil : JsonFields
  | cons (key : String) (value : Json) (tail : JsonFields) : JsonFields
end

/-- Build a JSON array from a Lean list of values. -/
def Json.arrOf (l : List Json) : Json :=
  Json.arr (l.foldr JsonItems.cons JsonItems.nil)

/-- Build a JSON object from a Lean list of key/value pairs (insertion
order preserved). -/
def Json.objOf (l : List (String × Json)) : Json :=
  Json.obj (l.foldr (fun kv t => JsonFields.cons kv.1 kv.2 t) JsonFields.nil)

/-- A thrown JavaScript error value.  `message` is `none` when the thrown
value has no (or an undefined) `message` property.  `isAxiosError` and
`responseDataError` model the extra fields consulted by
`extendAndThrowOpenAIError` on axios errors (`error.response.data.error`
kept as a `Json` value; `none` models an absent `error.response`). -/
structure JsError where
  message : Option String
  isAxiosError : Bool
  responseDataError : Option Json

/-- Model of `new TypeError(msg)` (thrown by property accesses on `undefined` and by
calling a non-function value). -/
def jsTypeError (msg : String) : JsError :=
  { message := some msg, isAxiosError := false, responseDataError := none }

/-- Model of `new Error(msg)`. -/
def jsNewError (msg : String) : JsError :=
  { message := some msg, isAxiosError := false, responseDataError := none }

/-- JavaScript truthiness of a value (`if (v)`). -/
def jsTruthy : Json → Bool
  | Json.null => false
  | Json.bool b => b
  | Json.num q => q != 0
  | Json.str s => s != ""
  | Json.arr _ => true
  | Json.obj _ => true

/-- The opening-brace character. -/
def lbrace : Char := Char.ofNat 123

/-- The closing-brace character. -/
def rbrace : Char := Char.ofNat 125

/-- Model of how `JSON.stringify` escapes one character inside a string
literal.  The rare `\uXXXX` escapes of control characters other than
newline, carriage return and tab are elided (no claim depends on them). -/
def jsonEscapeChar (c : Char) : String :=
  if c = '"' then "\\\""
  else if c = '\\' then "\\\\"
  else if c = '\n' then "\\n"
  else if c = '\r' then "\\r"
  else if c = '\t' then "\\t"
  else String.singleton c

/-- Escape the body of a JSON string literal. -/
def jsonEscape (s : String) : String :=
  s.data.foldl (fun acc c => acc ++ jsonEscapeChar c) ""

/-- A JSON string literal: `"..."` with escapes. -/
def jsonQuote (s : String) : String :=
  "\"" ++ jsonEscape s ++ "\""

/-- Rendering of a JavaScript number.  Integers render exactly as in JS;
the decimal rendering of non-integers is approximated by the rational's
canonical form (no claim depends on the rendering of non-integers). -/
def jsNumberToString (q : ℚ) : String :=
  if q.den = 1 then toString q.num else toString q

mutual
/-- Model of the builtin `JSON.stringify` on a defined value. -/
def jsonStringify : Json → String
  | Json.null => "null"
  | Json.bool true => "true"
  | Json.bool false => "false"
  | Json.num q => jsNumberToString q
  | Json.str s => jsonQuote s
  | Json.arr elems => "[" ++ jsonStringifyItems elems ++ "]"
  | Json.obj fields =>
      String.singleton lbrace ++ jsonStringifyFields fields ++ String.singleton rbrace
/-- Comma-separated serialization of array elements. -/
def jsonStringifyItems : JsonItems → String
  | JsonItems.nil => ""
  | JsonItems.cons h JsonItems.nil => jsonStringify h
  | JsonItems.cons h t => jsonStringify h ++ "," ++ jsonStringifyItems t
/-- Comma-separated serialization of object fields. -/
def jsonStringifyFields : JsonFields → String
  | JsonFields.nil => ""
  | JsonFields.cons k v JsonFields.nil => jsonQuote k ++ ":" ++ jsonStringify v
  | JsonFields.cons k v t => jsonQuote k ++ ":" ++ jsonStringify v ++ "," ++ jsonStringifyFields t
end

/-- JSON whitespace. -/
def isJsonWs (c : Char) : Bool :=
  c == ' ' || c == '\n' || c == '\r' || c == '\t'

/-- Drop leading JSON whitespace. -/
def skipWs : List Char → List Char
  | [] => []
  | c :: cs => if isJsonWs c then skipWs cs else c :: cs

/-- Hexadecimal digit value, for `\uXXXX` escapes. -/
def hexVal (c : Char) : Option Nat :=
  if '0' ≤ c ∧ c ≤ '9' then some (c.toNat - '0'.toNat)
  else if 'a' ≤ c ∧ c ≤ 'f' then some (c.toNat - 'a'.toNat + 10)
  else if 'A' ≤ c ∧ c ≤ 'F' then some (c.toNat - 'A'.toNat + 10)
  else none

/-- Parse the rest of a JSON string literal (after the opening quote),
accumulating into `acc`; returns the string and the unconsumed input.
Fuel-driven (the fuel strictly exceeds the input length at call sites). -/
def parseStringRest : Nat → List Char → String → Except Unit (String × List Char)
  | 0, _, _ => Except.error ()
  | _ + 1, [], _ => Except.error ()
  | fuel + 1, c :: cs, acc =>
    if c = '"' then Except.ok (acc, cs)
    else if c = '\\' then
      match cs with
      | [] => Except.error ()
      | e :: cs2 =>
        if e = '"' then parseStringRest fuel cs2 (acc.push '"')
        else if e = '\\' then parseStringRest fuel cs2 (acc.push '\\')
        else if e = '/' then parseStringRest fuel cs2 (acc.push '/')
        else if e = 'b' then parseStringRest fuel cs2 (acc.push (Char.ofNat 8))
        else if e = 'f' then parseStringRest fuel cs2 (acc.push (Char.ofNat 12))
        else if e = 'n' then parseStringRest fuel cs2 (acc.push '\n')
        else if e = 'r' then parseStringRest fuel cs2 (acc.push '\r')
        else if e = 't' then parseStringRest fuel cs2 (acc.push '\t')
        else if e = 'u' then
          match cs2 with
          | h1 :: h2 :: h3 :: h4 :: cs3 =>
            match hexVal h1, hexVal h2, hexVal h3, hexVal h4 with
            | some a, some b, some c2, some d =>
                parseStringRest fuel cs3 (acc.push (Char.ofNat (((a * 16 + b) * 16 + c2) * 16 + d)))
            | _, _, _, _ => Except.error ()
          | _ => Except.error ()
        else Except.error ()
    else if c.toNat < 32 then Except.error ()
    else parseStringRest fuel cs (acc.push c)

/-- Longest prefix of decimal digits, plus the rest. -/
def takeDigits : List Char → List Char × List Char
  | [] => ([], [])
  | c :: cs =>
    if c.isDigit then
      let r := takeDigits cs
      (c :: r.1, r.2)
    else ([], c :: cs)

/-- Decimal digit characters to a natural number. -/
def digitsToNat (ds : List Char) : Nat :=
  ds.foldl (fun acc c => acc * 10 + (c.toNat - '0'.toNat)) 0

/-- Parse a JSON number (grammar: `-? int frac? exp?`), returning its exact
rational value and the unconsumed input. -/
def parseNumberCore (cs : List Char) : Except Unit (ℚ × List Char) :=
  let signed : Bool × List Char :=
    match cs with
    | '-' :: r => (true, r)
    | _ => (false, cs)
  let ip := takeDigits signed.2
  if ip.1 = [] then Except.error ()
  else if 1 < ip.1.length ∧ ip.1.head? = some '0' then Except.error ()
  else
    let intVal : ℚ := (digitsToNat ip.1 : ℚ)
    let fracStep : Except Unit (ℚ × List Char) :=
      match ip.2 with
      | '.' :: r =>
        let fp := takeDigits r
        if fp.1 = [] then Except.error ()
        else Except.ok (intVal + (digitsToNat fp.1 : ℚ) / ((10 : ℚ) ^ fp.1.length), fp.2)
      | _ => Except.ok (intVal, ip.2)
    match fracStep with
    | Except.error _ => Except.error ()
    | Except.ok mant =>
      match mant.2 with
      | 'e' :: r | 'E' :: r =>
        let esigned : Bool × List Char :=
          match r with
          | '+' :: r2 => (false, r2)
          | '-' :: r2 => (true, r2)
          | _ => (false, r)
        let ep := takeDigits esigned.2
        if ep.1 = [] then Except.error ()
        else
          let scaled : ℚ :=
            if esigned.1 then mant.1 / ((10 : ℚ) ^ digitsToNat ep.1)
            else mant.1 * ((10 : ℚ) ^ digitsToNat ep.1)
          Except.ok ((if signed.1 then -scaled else scaled), ep.2)
      | _ => Except.ok ((if signed.1 then -mant.1 else mant.1), mant.2)

/-- Parser mode: a plain value, or the member/element loop of an object or
array under construction (accumulators are reversed). -/
inductive ParseMode where
  | value : ParseMode
  | members (acc : List (String × Json)) : ParseMode
  | elements (acc : List Json) : ParseMode

/-- Fuel-driven recursive-descent JSON parser (model of the builtin
`JSON.parse` grammar); returns the value and the unconsumed input.  Every
recursive call consumes at least one input character, so fuel exceeding the
input length never runs out. -/
def parseJson : Nat → ParseMode → List Char → Except Unit (Json × List Char)
  | 0, _, _ => Except.error ()
  | fuel + 1, ParseMode.value, cs =>
    match skipWs cs with
    | [] => Except.error ()
    | c :: rest =>
      if c = lbrace then
        match skipWs rest with
        | [] => Except.error ()
        | c2 :: rest2 =>
          if c2 = rbrace then Except.ok (Json.objOf [], rest2)
          else parseJson fuel (ParseMode.members []) (c2 :: rest2)
      else if c = '[' then
        match skipWs rest with
        | [] => Except.error ()
        | c2 :: rest2 =>
          if c2 = ']' then Except.ok (Json.arrOf [], rest2)
          else parseJson fuel (ParseMode.elements []) (c2 :: rest2)
      else if c = '"' then
        match parseStringRest (rest.length + 1) rest "" with
        | Except.error _ => Except.error ()
        | Except.ok sr => Except.ok (Json.str sr.1, sr.2)
      else if c = 't' then
        match rest with
        | 'r' :: 'u' :: 'e' :: r => Except.ok (Json.bool true, r)
        | _ => Except.error ()
      else if c = 'f' then
        match rest with
        | 'a' :: 'l' :: 's' :: 'e' :: r => Except.ok (Json.bool false, r)
        | _ => Except.error ()
      else if c = 'n' then
        match rest with
        | 'u' :: 'l' :: 'l' :: r => Except.ok (Json.null, r)
        | _ => Except.error ()
      else if c = '-' ∨ c.isDigit then
        match parseNumberCore (c :: rest) with
        | Except.error _ => Except.error ()
        | Except.ok nr => Except.ok (Json.num nr.1, nr.2)
      else Except.error ()
  | fuel + 1, ParseMode.members acc, cs =>
    match skipWs cs with
    | [] => Except.error ()
    | c :: rest =>
      if c = '"' then
        match parseStringRest (rest.length + 1) rest "" with
        | Except.error _ => Except.error ()
        | Except.ok kr =>
          match skipWs kr.2 with
          | ':' :: r3 =>
            match parseJson fuel ParseMode.value r3 with
            | Except.error _ => Except.error ()
            | Except.ok vr =>
              match skipWs vr.2 with
              | [] => Except.error ()
              | c5 :: r5 =>
                if c5 = ',' then parseJson fuel (ParseMode.members ((kr.1, vr.1) :: acc)) r5
                else if c5 = rbrace then Except.ok (Json.objOf ((kr.1, vr.1) :: acc).reverse, r5)
                else Except.error ()
          | _ => Except.error ()
      else Except.error ()
  | fuel + 1, ParseMode.elements acc, cs =>
    match parseJson fuel ParseMode.value cs with
    | Except.error _ => Except.error ()
    | Except.ok vr =>
      match skipWs vr.2 with
      | [] => Except.error ()
      | c5 :: r5 =>
        if c5 = ',' then parseJson fuel (ParseMode.elements (vr.1 :: acc)) r5
        else if c5 = ']' then Except.ok (Json.arrOf (vr.1 :: acc).reverse, r5)
        else Except.error ()

/-- The `SyntaxError` thrown by `JSON.parse` on malformed input (the exact
engine-dependent message text is approximated; the code that calls
`JSON.parse` discards it). -/
def jsonParseError (s : String) : JsError :=
  { message := some ("Unexpected token in JSON: " ++ s),
    isAxiosError := false, responseDataError := none }

/-- Model of the builtin `JSON.parse`: parse a complete JSON document,
rejecting trailing garbage. -/
def jsonParse (s : String) : Except JsError Json :=
  match parseJson (s.data.length + 1) ParseMode.value s.data with
  | Except.error _ => Except.error (jsonParseError s)
  | Except.ok vr =>
    if (skipWs vr.2).isEmpty then Except.ok vr.1
    else Except.error (jsonParseError s)

example : jsonParse (String.singleton lbrace ++ String.singleton rbrace) = Except.ok (Json.objOf []) := rfl
example : jsonParse "not json" = Except.error (jsonParseError "not json") := rfl
example : jsonParse " [\"a\", true, null] " =
    Except.ok (Json.arrOf [Json.str "a", Json.bool true, Json.null]) := rfl

/-! ## Data model (src/index.ts lines 1-44, 203-246)

`ChatMessage` models `ChatCompletionRequestMessage`: role, optional
content, optional name, optional function call.  `Option` models an
absent/undefined property.  Roles are the string values of
`ChatCompletionRequestMessageRoleEnum`. -/

/-- A function call requested by the model: `{name, arguments?}`. -/
structure FunctionCall where
  name : String
  arguments : Option String
deriving DecidableEq

/-- Model of `ChatMessage = ChatCompletionRequestMessage`. -/
structure ChatMessage where
  role : String
  content : Option String
  name : Option String
  function_call : Option FunctionCall
deriving DecidableEq

/-- Model of `ChatHistory = ChatMessage[]`. -/
def ChatHistory : Type := List ChatMessage

/-- The object `{role: ChatRole.System, content}` built by the completion
entry points. -/
def systemMessageOf (content : String) : ChatMessage :=
  { role := "system", content := some content, name := none, function_call := none }

/-- A `ChatMessage` value used only as the out-of-range default of list
indexing (never observed on the executed paths). -/
def defaultChatMessage : ChatMessage :=
  { role := "", content := none, name := none, function_call := none }

/-- Model of `ChatCompletionFunctions`: the provider-facing descriptor of one
function (`{name, description, parameters}`). -/
structure ChatCompletionFunctions where
  name : String
  description : String
  parameters : Json

/-- The serialized form of one `ChatCompletionFunctions` descriptor
(object-literal insertion order: name, description, parameters). -/
def chatCompletionFunctionsToJson (f : ChatCompletionFunctions) : Json :=
  Json.objOf [("name", Json.str f.name), ("description", Json.str f.description),
    ("parameters", f.parameters)]

/-- The JavaScript object underlying a `ChatMessage`, as consumed by
`JSON.stringify`: undefined (absent) properties are omitted; property
order is the declaration order role, content, name, function_call. -/
def functionCallToJson (fc : FunctionCall) : Json :=
  Json.objOf ([("name", Json.str fc.name)]
    ++ (match fc.arguments with
        | none => []
        | some a => [("arguments", Json.str a)]))

/-- The JavaScript object underlying a `ChatMessage` (see
`functionCallToJson`). -/
def chatMessageToJson (m : ChatMessage) : Json :=
  Json.objOf ([("role", Json.str m.role)]
    ++ (match m.content with
        | none => []
        | some c => [("content", Json.str c)])
    ++ (match m.name with
        | none => []
        | some n => [("name", Json.str n)])
    ++ (match m.function_call with
        | none => []
        | some fc => [("function_call", functionCallToJson fc)]))

/-- Model of `JSON.stringify(message).length`: the serialized size of one message,
as counted by the context-window loop. -/
def msgChars (m : ChatMessage) : ℕ :=
  (jsonStringify (chatMessageToJson m)).length

/-- Model of `JSON.stringify(functions)`: the function list serialized for the size
computation; `JSON.stringify(null) = "null"` when no functions are
passed. -/
def functionsToJson : Option (List ChatCompletionFunctions) → Json
  | none => Json.null
  | some fs => Json.arrOf (fs.map chatCompletionFunctionsToJson)

/-! ## Function registry and dispatch (src/index.ts lines 165-302) -/

/-- The `chatState` consulted by `dispatch` (only its `chatHistory`
property is read; the whole value is also passed to the function body). -/
structure ChatState where
  chatHistory : List ChatMessage

/-- The validation-failure object returned by `GptFunction.validate`
(`{type: "FunctionCallInvalid", errorMessage}`). -/
structure ValidationErrorRecord where
  type : String
  errorMessage : String

/-- JavaScript string conversion of a plain object, as produced by a
template literal: always `"[object Object]"`. -/
def jsObjectToString (_ : ValidationErrorRecord) : String :=
  "[object Object]"

/-- The abstract class `GptFunction`.  `name` is an explicit field (the
source derives it from `this.constructor.name`); `ajvValidateFunction` is
the private field of the same name — `none` models the undefined value it
holds unless some code assigns it (the class itself never does, see
`mkGptFunction`); `doBody` is the abstract `do` method (an async function,
modelled by the fate of its promise). -/
structure GptFunction where
  name : String
  description : String
  parameters : Json
  isNoOp : Bool
  ajvValidateFunction : Option (Json → Except JsError Json)
  doBody : ChatState → Json → Except JsError Json

/-- The `GptFunction` constructor: assigns `description`, `parameters`
and `isNoOp`, and never assigns `ajvValidateFunction` (which therefore
remains undefined on every instance the source can build). -/
def mkGptFunction (name description : String) (parameters : Json) (isNoOp : Bool)
    (doBody : ChatState → Json → Except JsError Json) : GptFunction :=
  { name := name, description := description, parameters := parameters,
    isNoOp := isNoOp, ajvValidateFunction := none, doBody := doBody }

/-- Model of `GptFunction.validate(args)`: calls `this.ajvValidateFunction(args)`
(a `TypeError` when that field is undefined, since calling a non-function
throws); on a falsy result returns the invalid-call record, otherwise
returns undefined (`none`).  The call is not wrapped in any try/catch. -/
def GptFunction.validate (f : GptFunction) (args : Json) :
    Except JsError (Option ValidationErrorRecord) :=
  match f.ajvValidateFunction with
  | none => Except.error (jsTypeError "this.ajvValidateFunction is not a function")
  | some ajv =>
    match ajv args with
    | Except.error e => Except.error e
    | Except.ok valid =>
      if jsTruthy valid then Except.ok none
      else Except.ok (some ⟨"FunctionCallInvalid",
        "invalid arguments for function " ++ f.name ++ ":"⟩)

/-- Model of `DispatchResult`: the discriminated union of the three dispatch
outcomes. -/
inductive DispatchResult where
  | functionCallInvalid (errorMessage : String) : DispatchResult
  | functionSucceeded (result : Json) : DispatchResult
  | functionThrew (error : JsError) : DispatchResult

/-- Model of `GptFunctionsConfig`: the function registry. -/
structure GptFunctionsConfig where
  functions : List GptFunction

/-- The two-character string of an empty JSON object literal. -/
def emptyObjectLiteral : String :=
  String.singleton lbrace ++ String.singleton rbrace

/-- Model of `assistantMessage.function_call.arguments || "{}"`: the empty string
and an absent property are both falsy, so both default to `"{}"`. -/
def defaultedArguments : Option String → String
  | none => emptyObjectLiteral
  | some s => if s = "" then emptyObjectLiteral else s

/-- The tail of `dispatch` from the `func.validate(args)` call on: validate
(an uncaught throw propagates), then the no-op short-circuit, then the
try/catch around `await Promise.resolve(func.do(chatState, args))`.  All
thrown values in this model are `Error` instances, so the
`error instanceof Error` branch always keeps the error itself. -/
def dispatchParsedArgs (func : GptFunction) (functionName : String) (chatState : ChatState)
    (args : Json) : Except JsError DispatchResult :=
  match func.validate args with
  | Except.error e => Except.error e
  | Except.ok validationErrorMessage =>
    match validationErrorMessage with
    | some v => Except.ok (DispatchResult.functionCallInvalid
        ("invalid arguments for function " ++ functionName ++ ": " ++ jsObjectToString v))
    | none =>
      if func.isNoOp then Except.ok (DispatchResult.functionSucceeded Json.null)
      else
        match func.doBody chatState args with
        | Except.ok result => Except.ok (DispatchResult.functionSucceeded result)
        | Except.error error => Except.ok (DispatchResult.functionThrew error)

/-- Model of `GptFunctionsConfig.dispatch(chatState)`: reads the last message of
`chatState.chatHistory` (an index out of range yields undefined, whose
`.function_call` access throws), defaults the arguments string, looks the
function up by name, parses the arguments, then validates/executes via
`dispatchParsedArgs`. -/
def GptFunctionsConfig.dispatch (cfg : GptFunctionsConfig) (chatState : ChatState) :
    Except JsError DispatchResult :=
  match chatState.chatHistory.getLast? with
  | none => Except.error (jsTypeError "Cannot read properties of undefined (reading 'function_call')")
  | some assistantMessage =>
    match assistantMessage.function_call with
    | none => Except.error (jsTypeError "Cannot read properties of undefined (reading 'name')")
    | some functionCall =>
      let functionName := functionCall.name
      let argumentsString := defaultedArguments functionCall.arguments
      match cfg.functions.find? (fun f => f.name == functionName) with
      | none => Except.ok (DispatchResult.functionCallInvalid ("unknown function " ++ functionName))
      | some func =>
        match jsonParse argumentsString with
        | Except.error _ => Except.ok (DispatchResult.functionCallInvalid
            ("invalid JSON string for arguments: " ++ argumentsString))
        | Except.ok args => dispatchParsedArgs func functionName chatState args

/-! ## Dispatch claims -/

/-- The registry entry used by the C1 failing input: a function built by
the `GptFunction` constructor (so its `ajvValidateFunction` is
undefined). -/
def c1Function : GptFunction :=
  mkGptFunction "doIt" "a test function" (Json.objOf []) false (fun _ _ => Except.ok Json.null)

/-- The C1 failing input: the last message carries a well-formed call of
the registered function `doIt`. -/
def c1ChatState : ChatState :=
  ⟨[{ role := "assistant", content := some "", name := none,
      function_call := some ⟨"doIt", some emptyObjectLiteral⟩ }]⟩

/-- C1: refuted on the code as written — `dispatch` propagates an
exception instead of returning a `DispatchResult`.  For any function built
by the `GptFunction` constructor, `ajvValidateFunction` is undefined, so
`validate` throws a `TypeError`, and the `func.validate(args)` call in
`dispatch` is outside every try/catch, so the error escapes `dispatch`
whenever the named function is found and its arguments parse. -/
theorem dispatch_throws_from_validate :
    GptFunctionsConfig.dispatch ⟨[c1Function]⟩ c1ChatState =
      Except.error (jsTypeError "this.ajvValidateFunction is not a function") := rfl

/-- C5: a registered no-op function whose call parses and validates yields
`FunctionSucceeded` with a null result, and the `do` body is never
invoked: `body` is universally quantified and the conclusion does not
depend on it. -/
theorem dispatch_noop_succeeds_null (functions : List GptFunction) (st : ChatState)
    (msg : ChatMessage) (fc : FunctionCall) (nm ds : String) (ps : Json)
    (ajv : Option (Json → Except JsError Json))
    (body : ChatState → Json → Except JsError Json) (args : Json)
    (hlast : st.chatHistory.getLast? = some msg)
    (hfc : msg.function_call = some fc)
    (hfind : functions.find? (fun f => f.name == fc.name) =
      some ⟨nm, ds, ps, true, ajv, body⟩)
    (hparse : jsonParse (defaultedArguments fc.arguments) = Except.ok args)
    (hvalid : GptFunction.validate ⟨nm, ds, ps, true, ajv, body⟩ args = Except.ok none) :
    GptFunctionsConfig.dispatch ⟨functions⟩ st =
      Except.ok (DispatchResult.functionSucceeded Json.null) := by
  simp only [GptFunctionsConfig.dispatch, hlast, hfc, hfind, hparse, dispatchParsedArgs, hvalid]
  rfl

/-- A validator that accepts every argument value (a runtime-assigned
`ajvValidateFunction`). -/
def c5Validator : Json → Except JsError Json := fun _ => Except.ok (Json.bool true)

/-- A body that must never run for a no-op function. -/
def c5Body : ChatState → Json → Except JsError Json := fun _ _ => Except.ok (Json.str "MUST NOT RUN")

/-- A registered no-op function with an accepting validator. -/
def c5Function : GptFunction := ⟨"noopFn", "declarative only", Json.objOf [], true, some c5Validator, c5Body⟩

/-- The last message of the C5 witness state. -/
def c5Message : ChatMessage :=
  ⟨"assistant", some "", none, some ⟨"noopFn", some emptyObjectLiteral⟩⟩

/-- The C5 witness chat state. -/
def c5State : ChatState := ⟨[c5Message]⟩

/-- Witness for C5 at a concrete registry and chat state. -/
theorem dispatch_noop_succeeds_null_witness :
    GptFunctionsConfig.dispatch ⟨[c5Function]⟩ c5State =
      Except.ok (DispatchResult.functionSucceeded Json.null) :=
  dispatch_noop_succeeds_null [c5Function] c5State c5Message ⟨"noopFn", some emptyObjectLiteral⟩
    "noopFn" "declarative only" (Json.objOf []) (some c5Validator) c5Body (Json.objOf [])
    rfl rfl rfl rfl rfl

/-- The C6 counterexample state: the last message calls an unregistered
function `f` with arguments that are not valid JSON. -/
def c6State : ChatState :=
  ⟨[⟨"assistant", some "", none, some ⟨"f", some "not json"⟩⟩]⟩

/-- C6 as stated is false: with malformed arguments and an unregistered
name, `dispatch` reports the unknown function, not the bad arguments
string — the lookup happens before the parse. -/
theorem dispatch_lookup_precedes_parse_counterexample :
    GptFunctionsConfig.dispatch ⟨[]⟩ c6State =
      Except.ok (DispatchResult.functionCallInvalid "unknown function f") ∧
    GptFunctionsConfig.dispatch ⟨[]⟩ c6State ≠
      Except.ok (DispatchResult.functionCallInvalid
        ("invalid JSON string for arguments: not json")) := by
  refine ⟨rfl, ?_⟩
  intro h
  rw [show GptFunctionsConfig.dispatch ⟨[]⟩ c6State =
    Except.ok (DispatchResult.functionCallInvalid "unknown function f") from rfl] at h
  injection h with h1
  injection h1 with h2
  exact absurd h2 (by decide)

/-- C6 amended: `dispatch` looks the function up by name first; an
unregistered name yields `FunctionCallInvalid` naming the unknown function
without parsing the arguments, and for a registered function, malformed
arguments JSON yields `FunctionCallInvalid` reporting the bad arguments
string, with `validate` never invoked (the found function `g`, including
its validator field, is arbitrary and the conclusion does not depend on
it). -/
theorem dispatch_lookup_then_parse :
    (∀ (functions : List GptFunction) (st : ChatState) (msg : ChatMessage) (fc : FunctionCall)
      (g : GptFunction) (e : JsError),
      st.chatHistory.getLast? = some msg →
      msg.function_call = some fc →
      functions.find? (fun f => f.name == fc.name) = some g →
      jsonParse (defaultedArguments fc.arguments) = Except.error e →
      GptFunctionsConfig.dispatch ⟨functions⟩ st =
        Except.ok (DispatchResult.functionCallInvalid
          ("invalid JSON string for arguments: " ++ defaultedArguments fc.arguments))) ∧
    (∀ (functions : List GptFunction) (st : ChatState) (msg : ChatMessage) (fc : FunctionCall),
      st.chatHistory.getLast? = some msg →
      msg.function_call = some fc →
      functions.find? (fun f => f.name == fc.name) = none →
      GptFunctionsConfig.dispatch ⟨functions⟩ st =
        Except.ok (DispatchResult.functionCallInvalid ("unknown function " ++ fc.name))) := by
  constructor
  · intro functions st msg fc g e hlast hfc hfind hparse
    simp only [GptFunctionsConfig.dispatch, hlast, hfc, hfind, hparse]
  · intro functions st msg fc hlast hfc hfind
    simp only [GptFunctionsConfig.dispatch, hlast, hfc, hfind]

/-- A registered function for the C6 witness (constructor-built). -/
def c6wFunction : GptFunction :=
  mkGptFunction "g" "takes garbage" (Json.objOf []) false (fun _ _ => Except.ok Json.null)

/-- C6 witness state 1: registered function `g` called with malformed
arguments. -/
def c6wState1 : ChatState :=
  ⟨[⟨"assistant", some "", none, some ⟨"g", some "not json"⟩⟩]⟩

/-- C6 witness state 2: unregistered function `h` called. -/
def c6wState2 : ChatState :=
  ⟨[⟨"assistant", some "", none, some ⟨"h", some "not json"⟩⟩]⟩

/-- Witness for the amended C6 at concrete registries and states. -/
theorem dispatch_lookup_then_parse_witness :
    GptFunctionsConfig.dispatch ⟨[c6wFunction]⟩ c6wState1 =
      Except.ok (DispatchResult.functionCallInvalid
        ("invalid JSON string for arguments: " ++ defaultedArguments (some "not json"))) ∧
    GptFunctionsConfig.dispatch ⟨[c6wFunction]⟩ c6wState2 =
      Except.ok (DispatchResult.functionCallInvalid ("unknown function " ++ "h")) :=
  ⟨dispatch_lookup_then_parse.1 [c6wFunction] c6wState1
      ⟨"assistant", some "", none, some ⟨"g", some "not json"⟩⟩ ⟨"g", some "not json"⟩
      c6wFunction (jsonParseError "not json") rfl rfl rfl rfl,
   dispatch_lookup_then_parse.2 [c6wFunction] c6wState2
      ⟨"assistant", some "", none, some ⟨"h", some "not json"⟩⟩ ⟨"h", some "not json"⟩
      rfl rfl rfl⟩

/-- C9: an absent or empty arguments string is defaulted to the literal
`"{}"`, which parses to the empty object, and dispatch proceeds to the
validation/execution stage (`dispatchParsedArgs`) with that empty object
rather than failing as invalid JSON. -/
theorem dispatch_defaults_empty_arguments (functions : List GptFunction) (st : ChatState)
    (msg : ChatMessage) (fc : FunctionCall) (g : GptFunction)
    (hlast : st.chatHistory.getLast? = some msg)
    (hfc : msg.function_call = some fc)
    (hargs : fc.arguments = none ∨ fc.arguments = some "")
    (hfind : functions.find? (fun f => f.name == fc.name) = some g) :
    defaultedArguments fc.arguments = emptyObjectLiteral ∧
    jsonParse emptyObjectLiteral = Except.ok (Json.objOf []) ∧
    GptFunctionsConfig.dispatch ⟨functions⟩ st =
      dispatchParsedArgs g fc.name st (Json.objOf []) := by
  have hdef : defaultedArguments fc.arguments = emptyObjectLiteral := by
    rcases hargs with h | h <;> rw [h] <;> rfl
  refine ⟨hdef, rfl, ?_⟩
  simp only [GptFunctionsConfig.dispatch, hlast, hfc, hfind, hdef]
  rfl

/-- A registered function for the C9 witness (constructor-built, so its
validator field is undefined). -/
def c9Function : GptFunction :=
  mkGptFunction "noArgs" "called without arguments" (Json.objOf []) false
    (fun _ _ => Except.ok Json.null)

/-- C9 witness state: the function call carries no arguments string. -/
def c9State : ChatState :=
  ⟨[⟨"assistant", some "", none, some ⟨"noArgs", none⟩⟩]⟩

/-- Witness for C9 at a concrete registry and chat state. -/
theorem dispatch_defaults_empty_arguments_witness :
    defaultedArguments none = emptyObjectLiteral ∧
    jsonParse emptyObjectLiteral = Except.ok (Json.objOf []) ∧
    GptFunctionsConfig.dispatch ⟨[c9Function]⟩ c9State =
      dispatchParsedArgs c9Function "noArgs" c9State (Json.objOf []) :=
  dispatch_defaults_empty_arguments [c9Function] c9State
    ⟨"assistant", some "", none, some ⟨"noArgs", none⟩⟩ ⟨"noArgs", none⟩ c9Function
    rfl rfl (Or.inl rfl) rfl

/-! ## Retry (src/index.ts lines 12, 145-163)

`retryOnOpenAiError(func, ...args)` loops `while (retries < MAX_RETRIES)`,
doing `return func(...args)` inside a try/catch.  A call is modelled as
`Nat → Except JsError (Except JsError α)`: the argument is the attempt
index, the outer layer is a synchronous throw during the call expression
(caught by the try/catch and retried), and the inner layer is the fate of
the returned promise — which is returned without `await`, so a rejected
promise propagates to the caller uncaught. -/

/-- Model of `MAX_RETRIES` (src/index.ts line 12). -/
def MAX_RETRIES : ℕ := 5

/-- The aggregated error thrown on exhaustion:
`Giving up after ${retries}.\nfunc=${func}\nargs=${args}\nerror=${err.message}`.
The `func`/`args` interpolations (the function's source text and the
argument list) are elided as fixed placeholders; an undefined `message`
interpolates as `"undefined"`. -/
def givingUpError (retries : ℕ) (err : JsError) : JsError :=
  jsNewError ("Giving up after " ++ toString retries ++
    ".\nfunc=[function]\nargs=[args]\nerror=" ++
    (match err.message with
     | none => "undefined"
     | some m => m))

/-- The retry loop; the first argument is the remaining iteration budget
`MAX_RETRIES - retries`, the second the current value of `retries`, the
third the last caught error (`err`). -/
def retryLoop {α : Type} (func : ℕ → Except JsError (Except JsError α)) :
    ℕ → ℕ → JsError → Except JsError α
  | 0, retries, err => Except.error (givingUpError retries err)
  | n + 1, retries, _err =>
    match func retries with
    | Except.ok p => p
    | Except.error e => retryLoop func n (retries + 1) e

/-- Model of `retryOnOpenAiError`: run the loop from `retries = 0` with
`err = new Error()` (whose `message` is the empty string). -/
def retryOnOpenAiError {α : Type} (func : ℕ → Except JsError (Except JsError α)) :
    Except JsError α :=
  retryLoop func MAX_RETRIES 0 (jsNewError "")

/-- C4 amended: a callable that throws synchronously on every attempt is
attempted exactly `MAX_RETRIES` (5) times (only attempts `0..4` are
consulted) and the aggregated error's message spells out the retry count
and the last underlying error's message; a callable whose attempt `j`
within the bound completes returns that attempt's promise as the overall
result (so a fulfilled promise's value is returned — while a rejected
promise from the first completed attempt propagates un-retried, which is
what refutes the claim as stated). -/
theorem retryOnOpenAiError_spec :
    (∀ (α : Type) (func : ℕ → Except JsError (Except JsError α)) (e : ℕ → JsError),
      (∀ k, k < MAX_RETRIES → func k = Except.error (e k)) →
      retryOnOpenAiError func = Except.error (givingUpError MAX_RETRIES (e 4)) ∧
      (givingUpError MAX_RETRIES (e 4)).message =
        some ("Giving up after 5.\nfunc=[function]\nargs=[args]\nerror=" ++
          (match (e 4).message with
           | none => "undefined"
           | some m => m))) ∧
    (∀ (α : Type) (func : ℕ → Except JsError (Except JsError α)) (j : ℕ)
      (p : Except JsError α),
      j < MAX_RETRIES →
      (∀ k, k < j → ∃ e', func k = Except.error e') →
      func j = Except.ok p →
      retryOnOpenAiError func = p) := by
  constructor
  · intro α func e h
    have h0 := h 0 (by decide)
    have h1 := h 1 (by decide)
    have h2 := h 2 (by decide)
    have h3 := h 3 (by decide)
    have h4 := h 4 (by decide)
    constructor
    · simp [retryOnOpenAiError, MAX_RETRIES, retryLoop, h0, h1, h2, h3, h4]
    · show some _ = some _
      have hpre : ("Giving up after " ++ toString MAX_RETRIES ++
          ".\nfunc=[function]\nargs=[args]\nerror=") =
          "Giving up after 5.\nfunc=[function]\nargs=[args]\nerror=" := by decide
      calc (givingUpError MAX_RETRIES (e 4)).message
          = some (("Giving up after " ++ toString MAX_RETRIES ++
              ".\nfunc=[function]\nargs=[args]\nerror=") ++
            (match (e 4).message with
             | none => "undefined"
             | some m => m)) := by
            simp [givingUpError, jsNewError, String.append_assoc]
        _ = _ := by rw [hpre]
  · intro α func j p hj hfail hj'
    match j, hj with
    | 0, _ =>
      simp [retryOnOpenAiError, MAX_RETRIES, retryLoop, hj']
    | 1, _ =>
      obtain ⟨e0, h0⟩ := hfail 0 (by decide)
      simp [retryOnOpenAiError, MAX_RETRIES, retryLoop, h0, hj']
    | 2, _ =>
      obtain ⟨e0, h0⟩ := hfail 0 (by decide)
      obtain ⟨e1, h1⟩ := hfail 1 (by decide)
      simp [retryOnOpenAiError, MAX_RETRIES, retryLoop, h0, h1, hj']
    | 3, _ =>
      obtain ⟨e0, h0⟩ := hfail 0 (by decide)
      obtain ⟨e1, h1⟩ := hfail 1 (by decide)
      obtain ⟨e2, h2⟩ := hfail 2 (by decide)
      simp [retryOnOpenAiError, MAX_RETRIES, retryLoop, h0, h1, h2, hj']
    | 4, _ =>
      obtain ⟨e0, h0⟩ := hfail 0 (by decide)
      obtain ⟨e1, h1⟩ := hfail 1 (by decide)
      obtain ⟨e2, h2⟩ := hfail 2 (by decide)
      obtain ⟨e3, h3⟩ := hfail 3 (by decide)
      simp [retryOnOpenAiError, MAX_RETRIES, retryLoop, h0, h1, h2, h3, hj']

/-- A callable that throws synchronously on every attempt. -/
def c4FailFunc : ℕ → Except JsError (Except JsError ℕ) :=
  fun _ => Except.error (jsNewError "boom")

/-- A callable whose first attempt completes with a fulfilled promise. -/
def c4SuccFunc : ℕ → Except JsError (Except JsError ℕ) :=
  fun _ => Except.ok (Except.ok 7)

/-- Witness for the amended C4 at concrete callables. -/
theorem retryOnOpenAiError_spec_witness :
    retryOnOpenAiError c4FailFunc = Except.error (givingUpError MAX_RETRIES (jsNewError "boom")) ∧
    retryOnOpenAiError c4SuccFunc = Except.ok 7 :=
  ⟨(retryOnOpenAiError_spec.1 ℕ c4FailFunc (fun _ => jsNewError "boom") (fun _ _ => rfl)).1,
   retryOnOpenAiError_spec.2 ℕ c4SuccFunc 0 (Except.ok 7) (by decide)
     (fun k hk => (Nat.not_lt_zero k hk).elim) rfl⟩

/-- A callable that fails on every invocation by returning a rejected
promise (every real provider call is asynchronous, so this is how an
always-failing provider call fails). -/
def c4AsyncFailFunc : ℕ → Except JsError (Except JsError ℕ) :=
  fun _ => Except.ok (Except.error (jsNewError "refused"))

/-- C4 as stated is false: for a callable failing on every invocation via
a rejected promise, `retryOnOpenAiError` propagates the underlying error
from the first attempt (the promise is returned without `await`, so the
rejection is never caught): the thrown error is the original one, whose
message is not the aggregated giving-up message containing the retry
count. -/
theorem retryOnOpenAiError_counterexample :
    retryOnOpenAiError c4AsyncFailFunc = Except.error (jsNewError "refused") ∧
    (jsNewError "refused").message ≠ (givingUpError MAX_RETRIES (jsNewError "refused")).message := by
  constructor
  · rfl
  · intro h
    have h2 : "refused" = "Giving up after " ++ toString MAX_RETRIES ++
        ".\nfunc=[function]\nargs=[args]\nerror=" ++ "refused" := by
      injection h
    exact absurd h2 (by decide)

/-! ## Context window and completion orchestration (src/index.ts lines 46-128, 304-394)

The provider client `getOpenAiApi().createChatCompletion` is imported from
`./openai`, which is not under src/.

Modelled from the spec: the ProviderClient boundary (spec section 6) — a
single operation taking `{model, temperature, messages, functions?}` and
returning `{choices: [{message: {role, content?, functionCall?}}]}` or
failing with a transport/provider error.  It is embedded as an explicit
function argument of the two completion entry points; the awaited value
may also be undefined (`Except.ok none`), which the response validation
step rejects. -/

/-- Model of `approximateMaxChars(model)`: a fixed per-model constant; throws
`unknown model` for every model but `gpt-4`. -/
def approximateMaxChars (model : String) : Except JsError ℚ :=
  if model = "gpt-4" then Except.ok (8000 * 4)
  else Except.error (jsNewError ("unknown model: " ++ model))

/-- Model of `FRACTION_OF_MAX_CHARS_TO_USE = 0.8` (as an exact rational). -/
def FRACTION_OF_MAX_CHARS_TO_USE : ℚ := 8 / 10

/-- Model of `baseChars`: serialized size of the system message plus serialized
size of the function list (`JSON.stringify(null).length = 4` when no
functions are passed). -/
def baseCharsOf (systemMessageContent : String)
    (functions : Option (List ChatCompletionFunctions)) : ℕ :=
  (jsonStringify (chatMessageToJson (systemMessageOf systemMessageContent))).length +
    (jsonStringify (functionsToJson functions)).length

/-- The message-dropping `while` loop of `getChatCompletion`.  The first
`ℕ` argument is the current `startingMessageIndex`, the `ℚ` argument the
current `totalChars`; the loop steps to index `i - 1` exactly when `i > 0`
and `totalChars + JSON.stringify(messages[i-1]).length < maxChars`, and
returns the final index and total. -/
def windowLoop (messages : List ChatMessage) (maxChars : ℚ) : ℕ → ℚ → ℕ × ℚ
  | 0, totalChars => (0, totalChars)
  | i + 1, totalChars =>
    if totalChars + (msgChars (messages.getD i defaultChatMessage) : ℚ) < maxChars then
      windowLoop messages maxChars i
        (totalChars + (msgChars (messages.getD i defaultChatMessage) : ℚ))
    else (i + 1, totalChars)

/-- The final `startingMessageIndex`: the loop is entered at index
`messages.length - 1` with `totalChars = baseChars +
JSON.stringify(messages[length-1]).length` (`0` is returned for an empty
history only for totality — `getChatCompletionPrompt` throws before using
it). -/
def selectedStartIndex (messages : List ChatMessage) (baseChars maxChars : ℚ) : ℕ :=
  match messages.getLast? with
  | none => 0
  | some lastMsg =>
    (windowLoop messages maxChars (messages.length - 1)
      (baseChars + (msgChars lastMsg : ℚ))).1

/-- Model of `messages.slice(startingMessageIndex)`: the contiguous suffix of the
history selected by the window loop. -/
def selectedSuffix (messages : List ChatMessage) (baseChars maxChars : ℚ) : List ChatMessage :=
  messages.drop (selectedStartIndex messages baseChars maxChars)

/-- The prompt-construction prefix of `getChatCompletion` (lines 332-361):
compute `maxChars` (an unknown model throws), `baseChars`, and the window;
for an empty history, `JSON.stringify(messages[-1])` is undefined and
reading its `.length` throws a `TypeError` — before any provider call.
On success the prompt is the system message prepended to the selected
suffix. -/
def getChatCompletionPrompt (messages : List ChatMessage) (systemMessageContent model : String)
    (functions : Option (List ChatCompletionFunctions)) : Except JsError (List ChatMessage) :=
  match approximateMaxChars model with
  | Except.error e => Except.error e
  | Except.ok approx =>
    let maxChars := approx * FRACTION_OF_MAX_CHARS_TO_USE
    let baseChars : ℚ := (baseCharsOf systemMessageContent functions : ℚ)
    match messages.getLast? with
    | none => Except.error (jsTypeError "Cannot read properties of undefined (reading 'length')")
    | some _ =>
      Except.ok (systemMessageOf systemMessageContent ::
        selectedSuffix messages baseChars maxChars)

/-- Model of `CreateChatCompletionRequest`: `{model, temperature, messages,
functions?}`; `functions` stays absent (`none`) unless the caller passed a
non-null list. -/
structure CreateChatCompletionRequest where
  model : String
  temperature : ℚ
  messages : List ChatMessage
  functions : Option (List ChatCompletionFunctions)

/-- The message of one response choice: `{role, content?, functionCall?}`
(spec section 6). -/
structure ResponseChoiceMessage where
  role : String
  content : Option String
  function_call : Option FunctionCall

/-- One response choice. -/
structure ResponseChoice where
  message : ResponseChoiceMessage

/-- Model of `CreateChatCompletionResponse`: `{choices: [...]}` (spec section 6). -/
structure CreateChatCompletionResponse where
  choices : List ResponseChoice

/-- The provider client operation (modelled from the spec, see the section
comment above): the request in, the fate of the awaited call out. -/
def ProviderClient : Type :=
  CreateChatCompletionRequest → Except JsError (Option CreateChatCompletionResponse)

/-- Model of `ChatCompletionResponseMessage` as returned by `getChatCompletion`:
content has been normalized to a plain string. -/
structure ChatCompletionResponseMessage where
  role : String
  content : String
  function_call : Option FunctionCall

/-- The serialized form of an outgoing request (used only inside error
messages; property order: model, temperature, messages, functions). -/
def requestToJson (req : CreateChatCompletionRequest) : Json :=
  Json.objOf ([("model", Json.str req.model), ("temperature", Json.num req.temperature),
    ("messages", Json.arrOf (req.messages.map chatMessageToJson))]
    ++ (match req.functions with
        | none => []
        | some fs => [("functions", Json.arrOf (fs.map chatCompletionFunctionsToJson))]))

/-- Model of `extendAndThrowOpenAIError(error, openaiRequest)` (lines 46-55): build
the extended message — `"unknown error"` for an undefined message, the
serialized `error.response.data.error` appended for an axios error with a
response, and the serialized request appended when one was passed — and
throw a fresh `Error` with it. -/
def extendOpenAIError (error : JsError) (openaiRequest : Option CreateChatCompletionRequest) :
    JsError :=
  let m0 := match error.message with
    | none => "unknown error"
    | some m => m
  let m1 := if error.isAxiosError then
      match error.responseDataError with
      | some d => m0 ++ ": " ++ jsonStringify d
      | none => m0
    else m0
  let m2 := match openaiRequest with
    | some req => m1 ++ "\nHere was the request:\n" ++ jsonStringify (requestToJson req)
    | none => m1
  jsNewError ("error calling OpenAI: " ++ m2)

/-- Model of `validateCreateChatCompletionResponse(response)` (lines 113-128): pass
a truthy response through unchanged, throw on an undefined one. -/
def validateCreateChatCompletionResponse (response : Option CreateChatCompletionResponse) :
    Except JsError CreateChatCompletionResponse :=
  match response with
  | some r => Except.ok r
  | none => Except.error (jsNewError "OpenAI response data validation error: undefined")

/-- Model of `getChatCompletion(messages, systemMessageContent, model, temperature,
functions)` (lines 325-394): build the windowed prompt, send the request
(provider errors are rethrown extended with the request), validate the
response shape, then return the first choice's message with `content`
normalized by `|| ""` and `role`/`function_call` passed through (an empty
`choices` array makes the `choices[0].message` access throw). -/
def getChatCompletion (messages : List ChatMessage) (systemMessageContent model : String)
    (temperature : ℚ) (functions : Option (List ChatCompletionFunctions))
    (createChatCompletion : ProviderClient) : Except JsError ChatCompletionResponseMessage :=
  match getChatCompletionPrompt messages systemMessageContent model functions with
  | Except.error e => Except.error e
  | Except.ok promptMessages =>
    let openaiRequest : CreateChatCompletionRequest :=
      ⟨model, temperature, promptMessages, functions⟩
    match createChatCompletion openaiRequest with
    | Except.error e => Except.error (extendOpenAIError e (some openaiRequest))
    | Except.ok response =>
      match validateCreateChatCompletionResponse response with
      | Except.error e => Except.error e
      | Except.ok responseData =>
        match responseData.choices with
        | [] => Except.error (jsTypeError "Cannot read properties of undefined (reading 'message')")
        | choice :: _ =>
          Except.ok ⟨choice.message.role, choice.message.content.getD "",
            choice.message.function_call⟩

/-- Model of `getCompletionUsingChatModel(systemMessage, prompt, model,
temperature)` (lines 64-111): send the fixed two-message exchange — with
no window computation and no `functions` — validate the response the same
way, and return `{role: assistant, content: choices[0].message.content ||
""}` (no name, no function-call field). -/
def getCompletionUsingChatModel (systemMessage prompt model : String) (temperature : ℚ)
    (createChatCompletion : ProviderClient) : Except JsError ChatMessage :=
  let promptMessages : List ChatMessage :=
    [{ role := "system", content := some systemMessage, name := none, function_call := none },
     { role := "user", content := some prompt, name := none, function_call := none }]
  let openaiRequest : CreateChatCompletionRequest := ⟨model, temperature, promptMessages, none⟩
  match createChatCompletion openaiRequest with
  | Except.error e => Except.error (extendOpenAIError e (some openaiRequest))
  | Except.ok response =>
    match validateCreateChatCompletionResponse response with
    | Except.error e => Except.error e
    | Except.ok responseData =>
      match responseData.choices with
      | [] => Except.error (jsTypeError "Cannot read properties of undefined (reading 'message')")
      | choice :: _ =>
        Except.ok ⟨"assistant", some (choice.message.content.getD ""), none, none⟩

/-! ## Context-window properties -/

/-- The total serialized size of the messages from index `i` on (the
suffix `messages.drop i`). -/
def sumCharsFrom (messages : List ChatMessage) (i : ℕ) : ℕ :=
  ((messages.drop i).map msgChars).sum

theorem sumCharsFrom_step (messages : List ChatMessage) (j : ℕ) (hj : j < messages.length) :
    sumCharsFrom messages j = msgChars messages[j] + sumCharsFrom messages (j + 1) := by
  unfold sumCharsFrom
  rw [List.drop_eq_getElem_cons hj, List.map_cons, List.sum_cons]

theorem windowLoop_fst_le (messages : List ChatMessage) (B : ℚ) :
    ∀ (i : ℕ) (t : ℚ), (windowLoop messages B i t).1 ≤ i := by
  intro i
  induction i with
  | zero => intro t; simp [windowLoop]
  | succ j ih =>
    intro t
    simp only [windowLoop]
    split
    · exact le_trans (ih _) (by omega)
    · simp

theorem windowLoop_fst_eq (messages : List ChatMessage) (B : ℚ) :
    ∀ (i : ℕ) (t : ℚ), (windowLoop messages B i t).1 = i → (windowLoop messages B i t).2 = t := by
  intro i
  induction i with
  | zero => intro t _; simp [windowLoop]
  | succ j ih =>
    intro t h
    by_cases hg : t + (msgChars (messages.getD j defaultChatMessage) : ℚ) < B
    · rw [windowLoop, if_pos hg] at h
      exfalso
      have := windowLoop_fst_le messages B j
        (t + (msgChars (messages.getD j defaultChatMessage) : ℚ))
      omega
    · rw [windowLoop, if_neg hg]

theorem windowLoop_snd_lt (messages : List ChatMessage) (B : ℚ) :
    ∀ (i : ℕ) (t : ℚ), (windowLoop messages B i t).1 < i → (windowLoop messages B i t).2 < B := by
  intro i
  induction i with
  | zero => intro t h; simp [windowLoop] at h
  | succ j ih =>
    intro t h
    by_cases hg : t + (msgChars (messages.getD j defaultChatMessage) : ℚ) < B
    · rw [windowLoop, if_pos hg] at h ⊢
      rcases Nat.lt_or_ge (windowLoop messages B j
          (t + (msgChars (messages.getD j defaultChatMessage) : ℚ))).1 j with hlt | hge
      · exact ih _ hlt
      · have heq : (windowLoop messages B j
            (t + (msgChars (messages.getD j defaultChatMessage) : ℚ))).1 = j :=
          le_antisymm (windowLoop_fst_le messages B j _) hge
        rw [windowLoop_fst_eq messages B j _ heq]
        exact hg
    · rw [windowLoop, if_neg hg] at h
      exact absurd h (by simp)

theorem windowLoop_snd_eq (messages : List ChatMessage) (B : ℚ) :
    ∀ (i : ℕ), i < messages.length → ∀ (base t : ℚ),
    t = base + (sumCharsFrom messages i : ℚ) →
    (windowLoop messages B i t).2 =
      base + (sumCharsFrom messages ((windowLoop messages B i t).1) : ℚ) := by
  intro i
  induction i with
  | zero => intro _ base t ht; simpa [windowLoop] using ht
  | succ j ih =>
    intro hlen base t ht
    have hj : j < messages.length := by omega
    have hc : messages.getD j defaultChatMessage = messages[j] := List.getD_eq_getElem _ _ hj
    rw [windowLoop, hc]
    split
    · apply ih hj base
      rw [ht, sumCharsFrom_step messages j hj]
      push_cast
      ring
    · simpa using ht

theorem windowLoop_budget_mono (messages : List ChatMessage) (B1 B2 : ℚ) (hB : B1 ≤ B2) :
    ∀ (i : ℕ) (t : ℚ), (windowLoop messages B2 i t).1 ≤ (windowLoop messages B1 i t).1 := by
  intro i
  induction i with
  | zero => intro t; simp [windowLoop]
  | succ j ih =>
    intro t
    by_cases hg1 : t + (msgChars (messages.getD j defaultChatMessage) : ℚ) < B1
    · have hg2 : t + (msgChars (messages.getD j defaultChatMessage) : ℚ) < B2 :=
        lt_of_lt_of_le hg1 hB
      simp only [windowLoop, if_pos hg1, if_pos hg2]
      exact ih _
    · simp only [windowLoop, if_neg hg1]
      split
      · exact le_trans (windowLoop_fst_le messages B2 j _) (Nat.le_succ j)
      · exact le_refl _

theorem drop_isSuffix_drop (l : List ChatMessage) {k1 k2 : ℕ} (h : k2 ≤ k1) :
    l.drop k1 <:+ l.drop k2 := by
  refine ⟨(l.drop k2).take (k1 - k2), ?_⟩
  conv_rhs => rw [← List.take_append_drop (k1 - k2) (l.drop k2)]
  rw [List.drop_drop, show k2 + (k1 - k2) = k1 from by omega]

theorem getLast?_drop_of_lt (l : List ChatMessage) (k : ℕ) (hk : k < l.length) :
    (l.drop k).getLast? = l.getLast? := by
  have hne : l.drop k ≠ [] := by
    rw [← List.length_pos, List.length_drop]
    omega
  conv_rhs => rw [← List.take_append_drop k l]
  rw [List.getLast?_append, List.getLast?_eq_getLast _ hne]
  rfl

theorem getChatCompletionPrompt_ok (messages : List ChatMessage)
    (systemMessageContent model : String) (functions : Option (List ChatCompletionFunctions))
    (M : ℚ) (hM : approximateMaxChars model = Except.ok M) (hne : messages ≠ []) :
    getChatCompletionPrompt messages systemMessageContent model functions =
      Except.ok (systemMessageOf systemMessageContent ::
        selectedSuffix messages (baseCharsOf systemMessageContent functions : ℚ)
          (M * FRACTION_OF_MAX_CHARS_TO_USE)) := by
  obtain ⟨lastMsg, hlast⟩ : ∃ m, messages.getLast? = some m := by
    cases h : messages.getLast? with
    | none => exact absurd (List.getLast?_eq_none_iff.mp h) hne
    | some m => exact ⟨m, rfl⟩
  simp only [getChatCompletionPrompt, hM, hlast]

/-- C2: for every non-empty history, system message, known model and
function list, the prompt built by `getChatCompletion` (its
`getChatCompletionPrompt` prefix) is the system message prepended to a
contiguous suffix `messages.drop k` of the history; the suffix contains
the most recent message (its last element is the history's last element),
and either it consists of only that single most recent message
(`k + 1 = messages.length`) or the serialized size of the selected
messages plus the serialized system message and function list is strictly
below `maxChars = approximateMaxChars(model) * 0.8`. -/
theorem window_suffix_spec (messages : List ChatMessage)
    (systemMessageContent model : String) (functions : Option (List ChatCompletionFunctions))
    (M : ℚ) (hM : approximateMaxChars model = Except.ok M) (hne : messages ≠ []) :
    ∃ k, k < messages.length ∧
      getChatCompletionPrompt messages systemMessageContent model functions =
        Except.ok (systemMessageOf systemMessageContent :: messages.drop k) ∧
      (messages.drop k).getLast? = messages.getLast? ∧
      (k + 1 = messages.length ∨
        (baseCharsOf systemMessageContent functions : ℚ) + (sumCharsFrom messages k : ℚ) <
          M * FRACTION_OF_MAX_CHARS_TO_USE) := by
  obtain ⟨lastMsg, hlast⟩ : ∃ m, messages.getLast? = some m := by
    cases h : messages.getLast? with
    | none => exact absurd (List.getLast?_eq_none_iff.mp h) hne
    | some m => exact ⟨m, rfl⟩
  have hlenpos : 0 < messages.length := List.length_pos.mpr hne
  have hnlen : messages.length - 1 < messages.length := by omega
  have hdropn : messages.drop (messages.length - 1) = [lastMsg] := by
    rw [List.drop_eq_getElem_cons hnlen, show messages.length - 1 + 1 = messages.length from by
      omega, List.drop_length]
    have : messages.getLast? = some messages[messages.length - 1] := by
      rw [List.getLast?_eq_getElem?, List.getElem?_eq_getElem hnlen]
    rw [hlast] at this
    injection this with this
    rw [this]
  have hsumn : sumCharsFrom messages (messages.length - 1) = msgChars lastMsg := by
    simp [sumCharsFrom, hdropn]
  set base : ℚ := (baseCharsOf systemMessageContent functions : ℚ) with hbase
  set maxChars : ℚ := M * FRACTION_OF_MAX_CHARS_TO_USE with hmax
  set k := selectedStartIndex messages base maxChars with hk
  have hkdef : k = (windowLoop messages maxChars (messages.length - 1)
      (base + (msgChars lastMsg : ℚ))).1 := by
    rw [hk, selectedStartIndex, hlast]
  have hkle : k ≤ messages.length - 1 := by
    rw [hkdef]; exact windowLoop_fst_le messages maxChars _ _
  have hklt : k < messages.length := by omega
  refine ⟨k, hklt, ?_, getLast?_drop_of_lt messages k hklt, ?_⟩
  · rw [getChatCompletionPrompt_ok messages systemMessageContent model functions M hM hne]
    rfl
  · rcases Nat.lt_or_ge k (messages.length - 1) with hlt | hge
    · right
      have hinit : base + (msgChars lastMsg : ℚ) =
          base + (sumCharsFrom messages (messages.length - 1) : ℚ) := by rw [hsumn]
      have hsnd := windowLoop_snd_eq messages maxChars (messages.length - 1) hnlen base
        (base + (msgChars lastMsg : ℚ)) hinit
      have hlt' : (windowLoop messages maxChars (messages.length - 1)
          (base + (msgChars lastMsg : ℚ))).1 < messages.length - 1 := by rw [← hkdef]; exact hlt
      have := windowLoop_snd_lt messages maxChars (messages.length - 1)
        (base + (msgChars lastMsg : ℚ)) hlt'
      rw [hsnd, ← hkdef] at this
      exact this
    · left
      omega

/-- The history of the C2 witness. -/
def c2Messages : List ChatMessage :=
  [{ role := "user", content := some "hello there", name := none, function_call := none }]

/-- Witness for C2 at a concrete history, system message, model and
(absent) function list. -/
theorem window_suffix_spec_witness :
    approximateMaxChars "gpt-4" = Except.ok (8000 * 4) ∧ c2Messages ≠ [] ∧
    (∃ k, k < c2Messages.length ∧
      getChatCompletionPrompt c2Messages "You are terse." "gpt-4" none =
        Except.ok (systemMessageOf "You are terse." :: c2Messages.drop k) ∧
      (c2Messages.drop k).getLast? = c2Messages.getLast? ∧
      (k + 1 = c2Messages.length ∨
        (baseCharsOf "You are terse." none : ℚ) + (sumCharsFrom c2Messages k : ℚ) <
          (8000 * 4) * FRACTION_OF_MAX_CHARS_TO_USE)) :=
  ⟨rfl, List.cons_ne_nil _ _,
    window_suffix_spec c2Messages "You are terse." "gpt-4" none (8000 * 4) rfl
      (List.cons_ne_nil _ _)⟩

/-- C3: the window-selection rule is monotonic in the budget: for a
non-empty history and budgets `B1 ≤ B2`, the suffix selected under `B1`
is a suffix of the suffix selected under `B2` — in particular every
message included under the smaller budget is included under the larger
one. -/
theorem window_budget_mono (messages : List ChatMessage) (base B1 B2 : ℚ)
    (hne : messages ≠ []) (hB : B1 ≤ B2) :
    selectedSuffix messages base B1 <:+ selectedSuffix messages base B2 ∧
    ∀ m ∈ selectedSuffix messages base B1, m ∈ selectedSuffix messages base B2 := by
  obtain ⟨lastMsg, hlast⟩ : ∃ m, messages.getLast? = some m := by
    cases h : messages.getLast? with
    | none => exact absurd (List.getLast?_eq_none_iff.mp h) hne
    | some m => exact ⟨m, rfl⟩
  have hmono : selectedStartIndex messages base B2 ≤ selectedStartIndex messages base B1 := by
    simp only [selectedStartIndex, hlast]
    exact windowLoop_budget_mono messages B1 B2 hB _ _
  have hsuf : selectedSuffix messages base B1 <:+ selectedSuffix messages base B2 :=
    drop_isSuffix_drop messages hmono
  exact ⟨hsuf, fun m hm => hsuf.subset hm⟩

/-- The history of the C3 witness. -/
def c3Messages : List ChatMessage :=
  [{ role := "user", content := some "hi", name := none, function_call := none }]

/-- Witness for C3 at a concrete history and budget pair. -/
theorem window_budget_mono_witness :
    c3Messages ≠ [] ∧ (10 : ℚ) ≤ 20 ∧
    (selectedSuffix c3Messages 0 10 <:+ selectedSuffix c3Messages 0 20 ∧
      ∀ m ∈ selectedSuffix c3Messages 0 10, m ∈ selectedSuffix c3Messages 0 20) :=
  ⟨List.cons_ne_nil _ _, by decide,
    window_budget_mono c3Messages 0 10 20 (List.cons_ne_nil _ _) (by decide)⟩

/-- C10: on the empty history, `getChatCompletion` (for a known model)
fails with the `TypeError` raised while reading the serialized length of
the missing most recent message — uniformly in the provider argument, so
before any provider call; the most-recent-message guarantee thus carries a
non-emptiness precondition. -/
theorem getChatCompletion_empty_history (systemMessageContent model : String)
    (temperature : ℚ) (functions : Option (List ChatCompletionFunctions))
    (createChatCompletion : ProviderClient) (M : ℚ)
    (hM : approximateMaxChars model = Except.ok M) :
    getChatCompletion [] systemMessageContent model temperature functions createChatCompletion =
      Except.error (jsTypeError "Cannot read properties of undefined (reading 'length')") := by
  simp only [getChatCompletion, getChatCompletionPrompt, hM]
  rfl

/-- A provider stub for the C10 witness (never reached). -/
def c10Provider : ProviderClient :=
  fun _ => Except.ok (some ⟨[⟨⟨"assistant", some "unreachable", none⟩⟩]⟩)

/-- Witness for C10 at a concrete call with the empty history. -/
theorem getChatCompletion_empty_history_witness :
    approximateMaxChars "gpt-4" = Except.ok (8000 * 4) ∧
    getChatCompletion [] "sys" "gpt-4" 0 none c10Provider =
      Except.error (jsTypeError "Cannot read properties of undefined (reading 'length')") :=
  ⟨rfl, getChatCompletion_empty_history "sys" "gpt-4" 0 none c10Provider (8000 * 4) rfl⟩

/-! ## Response handling and the secondary entry point -/

/-- C7: for every provider response with at least one choice (and any
non-empty history and known model), `getChatCompletion` returns the first
choice's message with `role` and `function_call` passed through unchanged
and `content` normalized to the empty string when absent
(`content.getD ""`). -/
theorem getChatCompletion_first_choice (messages : List ChatMessage)
    (systemMessageContent model : String) (temperature : ℚ)
    (functions : Option (List ChatCompletionFunctions)) (M : ℚ)
    (resp : CreateChatCompletionResponse) (choice : ResponseChoice) (rest : List ResponseChoice)
    (hM : approximateMaxChars model = Except.ok M)
    (hne : messages ≠ [])
    (hch : resp.choices = choice :: rest) :
    getChatCompletion messages systemMessageContent model temperature functions
        (fun _ => Except.ok (some resp)) =
      Except.ok ⟨choice.message.role, choice.message.content.getD "",
        choice.message.function_call⟩ := by
  simp only [getChatCompletion,
    getChatCompletionPrompt_ok messages systemMessageContent model functions M hM hne,
    validateCreateChatCompletionResponse, hch]

/-- The provider response of the C7 witness: one choice with a role, a
content and a function-call request. -/
def c7Resp : CreateChatCompletionResponse :=
  ⟨[⟨⟨"assistant", some "four", some ⟨"doThing", some emptyObjectLiteral⟩⟩⟩]⟩

/-- The history of the C7 witness. -/
def c7Messages : List ChatMessage :=
  [{ role := "user", content := some "2+2?", name := none, function_call := none }]

/-- Witness for C7 at a concrete history, model and response. -/
theorem getChatCompletion_first_choice_witness :
    approximateMaxChars "gpt-4" = Except.ok (8000 * 4) ∧ c7Messages ≠ [] ∧
    c7Resp.choices = ⟨⟨"assistant", some "four", some ⟨"doThing", some emptyObjectLiteral⟩⟩⟩ :: [] ∧
    getChatCompletion c7Messages "You are terse." "gpt-4" 0 none
        (fun _ => Except.ok (some c7Resp)) =
      Except.ok ⟨"assistant", "four", some ⟨"doThing", some emptyObjectLiteral⟩⟩ :=
  ⟨rfl, List.cons_ne_nil _ _, rfl,
    getChatCompletion_first_choice c7Messages "You are terse." "gpt-4" 0 none (8000 * 4)
      c7Resp ⟨⟨"assistant", some "four", some ⟨"doThing", some emptyObjectLiteral⟩⟩⟩ []
      rfl (List.cons_ne_nil _ _) rfl⟩

/-- C8 amended: for the known model `gpt-4`, `getCompletionUsingChatModel`
behaves exactly as `getChatCompletion` applied to the single-user-message
history (whose windowed prompt is the same two-message exchange), with the
result projected to a text-only assistant message: same provider request,
same error propagation and response validation, and the returned message
has role `assistant`, the normalized text content, and no function-call
field.  (For an unknown model the two differ — see the counterexample.) -/
theorem getCompletionUsingChatModel_refines (systemMessage prompt : String) (temperature : ℚ)
    (createChatCompletion : ProviderClient) :
    getCompletionUsingChatModel systemMessage prompt "gpt-4" temperature createChatCompletion =
      Except.map (fun m : ChatCompletionResponseMessage =>
        (⟨"assistant", some m.content, none, none⟩ : ChatMessage))
        (getChatCompletion [⟨"user", some prompt, none, none⟩]
          systemMessage "gpt-4" temperature none createChatCompletion) := by
  have hprompt : getChatCompletionPrompt [⟨"user", some prompt, none, none⟩]
      systemMessage "gpt-4" none =
      Except.ok [⟨"system", some systemMessage, none, none⟩,
        ⟨"user", some prompt, none, none⟩] := rfl
  simp only [getCompletionUsingChatModel, getChatCompletion, hprompt, systemMessageOf]
  cases hp : createChatCompletion ⟨"gpt-4", temperature,
      [⟨"system", some systemMessage, none, none⟩, ⟨"user", some prompt, none, none⟩], none⟩ with
  | error e => rfl
  | ok response =>
    cases response with
    | none => rfl
    | some r =>
      cases hc : r.choices with
      | nil => simp [validateCreateChatCompletionResponse, hc, Except.map]
      | cons ch tl => simp [validateCreateChatCompletionResponse, hc, Except.map]

/-- The provider stub of the C8 counterexample: echoes a fixed completion
for any request. -/
def c8Provider : ProviderClient :=
  fun _ => Except.ok (some ⟨[⟨⟨"assistant", some "hi", none⟩⟩]⟩)

/-- C8 as stated is false for unknown models: `getCompletionUsingChatModel`
never computes the window budget, so with model `gpt-3.5-turbo` it calls
the provider and succeeds, while the main pipeline `getChatCompletion`
fails fast with `unknown model` on the very same input — the secondary
entry point does not apply the same windowing step for every model. -/
theorem getCompletionUsingChatModel_counterexample :
    getCompletionUsingChatModel "sys" "question" "gpt-3.5-turbo" 0 c8Provider =
      Except.ok (⟨"assistant", some "hi", none, none⟩ : ChatMessage) ∧
    getChatCompletion [⟨"user", some "question", none, none⟩]
        "sys" "gpt-3.5-turbo" 0 none c8Provider =
      Except.error (jsNewError "unknown model: gpt-3.5-turbo") :=
  ⟨rfl, rfl⟩
